import Mathlib

/-!
Shallow embedding of `src/bot.py` (LeadBot): a Telegram lead-collection bot
with an SQLite store (tables `users`, `interactions`, `applications`,
`monthly_stats_saves`), a stats aggregator, an idempotent monthly export,
and a text-message dispatcher.

Timestamps in the program are naive-UTC ISO-8601 strings produced by
`datetime.utcnow().isoformat()`; for well-formed timestamps of that shape,
lexicographic string comparison coincides with the field-lexicographic
order on (year, month, day, hour, minute, second, microsecond).  We embed a
timestamp as that tuple of fields and the SQL string comparisons `ts >= ?`
and `ts < ?` as the field-lexicographic order.
-/

namespace LeadBot

/-- A naive-UTC timestamp, as the fields of `datetime`. -/
structure DateTime where
  year : Nat
  month : Nat
  day : Nat
  hour : Nat
  minute : Nat
  second : Nat
  micro : Nat
  deriving DecidableEq, Repr

/-- Strict chronological order on timestamps: field-lexicographic, which is
what lexicographic comparison of the ISO strings computes. -/
def DateTime.ltb (a b : DateTime) : Bool :=
  if a.year ≠ b.year then decide (a.year < b.year)
  else if a.month ≠ b.month then decide (a.month < b.month)
  else if a.day ≠ b.day then decide (a.day < b.day)
  else if a.hour ≠ b.hour then decide (a.hour < b.hour)
  else if a.minute ≠ b.minute then decide (a.minute < b.minute)
  else if a.second ≠ b.second then decide (a.second < b.second)
  else decide (a.micro < b.micro)

/-- Non-strict order, as string comparison gives it: `a <= b ↔ ¬ b < a`. -/
def DateTime.leb (a b : DateTime) : Bool :=
  !(DateTime.ltb b a)

/-- Row of the `users` table (`init_db`). -/
structure UserRow where
  user_id : Int
  username : Option String
  first_name : Option String
  last_name : Option String
  first_seen : DateTime
  last_seen : DateTime
  total_messages : Nat
  about_clicks : Nat
  cases_clicks : Nat
  deriving DecidableEq, Repr

/-- Row of the `interactions` table. -/
structure InteractionRow where
  user_id : Int
  button : String
  ts : DateTime
  deriving DecidableEq, Repr

/-- Row of the `applications` table. -/
structure ApplicationRow where
  user_id : Int
  username : Option String
  first_name : Option String
  last_name : Option String
  phone : String
  created_at : DateTime
  deriving DecidableEq, Repr

/-- Row of the `monthly_stats_saves` table (UNIQUE on (year, month)). -/
structure MonthlySaveRow where
  year : Nat
  month : Nat
  saved_at : DateTime
  deriving DecidableEq, Repr

/-- The SQLite database `bot_stats.db`. -/
structure Db where
  users : List UserRow
  interactions : List InteractionRow
  applications : List ApplicationRow
  monthly_stats_saves : List MonthlySaveRow
  deriving DecidableEq, Repr

def emptyDb : Db := ⟨[], [], [], []⟩

/-- The `message.from_user` data the handlers read. -/
structure TgUser where
  id : Int
  username : Option String
  first_name : Option String
  last_name : Option String
  deriving DecidableEq, Repr

/-- Python `s or default` on an optional string: `None` and `""` are falsy. -/
def pyOr (s : Option String) (dflt : String) : String :=
  match s with
  | some v => if v = "" then dflt else v
  | none => dflt

/-- Python whitespace characters stripped by `str.strip()` (ASCII part). -/
def isPySpace (c : Char) : Bool :=
  c = ' ' || c = '\t' || c = '\n' || c = '\r' || c = '\x0b' || c = '\x0c'

/-- Python `str.strip()`. -/
def pyStrip (s : String) : String :=
  String.mk (((s.data.dropWhile isPySpace).reverse.dropWhile isPySpace).reverse)

/-- `track_user_interaction` (src/bot.py:116): append one `interactions` row
with label `button or "other"`, then upsert the `users` row
(`INSERT ... ON CONFLICT(user_id) DO UPDATE`): on first contact insert a row
seeded with counters (1, about_inc, cases_inc); on conflict overwrite
username / first_name / last_name / last_seen and increment the counters.
`first_seen` is not in the `DO UPDATE SET` list. -/
def upsertRow (user : TgUser) (button : Option String) (now : DateTime)
    (r : UserRow) : UserRow :=
  if r.user_id = user.id then
    { r with
      username := user.username
      first_name := user.first_name
      last_name := user.last_name
      last_seen := now
      total_messages := r.total_messages + 1
      about_clicks := r.about_clicks + (if button = some "about" then 1 else 0)
      cases_clicks :=
        r.cases_clicks + (if button = some "cases" then 1 else 0) }
  else r

def seedRow (user : TgUser) (button : Option String) (now : DateTime) :
    UserRow :=
  ⟨user.id, user.username, user.first_name, user.last_name, now, now, 1,
   if button = some "about" then 1 else 0,
   if button = some "cases" then 1 else 0⟩

def track_user_interaction (db : Db) (user : TgUser) (button : Option String)
    (now : DateTime) : Db :=
  let button_label := pyOr button "other"
  let interactions := db.interactions ++ [⟨user.id, button_label, now⟩]
  let users :=
    if db.users.any (fun r => r.user_id == user.id) then
      db.users.map (upsertRow user button now)
    else
      db.users ++ [seedRow user button now]
  { db with users := users, interactions := interactions }

/-- `get_stats` (src/bot.py:176): all-time aggregates over `users`
(`COUNT(*)`, `SUM(about_clicks)`, `SUM(cases_clicks)`, `SUM(total_messages)`,
each coerced with `or 0` so an empty table yields 0). -/
def get_stats (db : Db) : Nat × Nat × Nat × Nat :=
  (db.users.length,
   (db.users.map (fun r => r.about_clicks)).sum,
   (db.users.map (fun r => r.cases_clicks)).sum,
   (db.users.map (fun r => r.total_messages)).sum)

/-- `get_month_stats` (src/bot.py:200): trailing-window aggregates over
`interactions` with `ts >= cutoff`, where the caller's cutoff is
`utcnow() - timedelta(days=days)`. The cutoff is taken as a parameter. -/
def get_month_stats (db : Db) (cutoff : DateTime) : Nat × Nat × Nat × Nat :=
  let rows := db.interactions.filter (fun i => DateTime.leb cutoff i.ts)
  ((rows.map (fun i => i.user_id)).dedup.length,
   (rows.filter (fun i => i.button == "about")).length,
   (rows.filter (fun i => i.button == "cases")).length,
   rows.length)

/-- `is_phone_number` (src/bot.py:283): keep digits and `+`, then count the
digits; true iff at least 10 remain. -/
def is_phone_number (text : String) : Bool :=
  let cleaned := text.data.filter (fun c => c.isDigit || c = '+')
  let digits := cleaned.filter (fun c => c.isDigit)
  decide (10 ≤ digits.length)

/-- `save_application` (src/bot.py:241), database part: append one
`applications` row (the admin notification is a send, modelled in the
dispatcher's effect trace). -/
def save_application (db : Db) (user : TgUser) (phone : String)
    (now : DateTime) : Db :=
  { db with
    applications := db.applications ++
      [⟨user.id, user.username, user.first_name, user.last_name, phone, now⟩] }

/-- Outcome of the provider call inside `ask_grok`'s `try` block: either the
completion arrives (with possibly-absent content), or an exception is raised,
possibly carrying an HTTP `status_code`. -/
inductive GrokOutcome where
  | success (content : Option String)
  | failure (statusCode : Option Nat)
  deriving DecidableEq, Repr

/-- `ask_grok` (src/bot.py:294): with no key or no client, `(None, None)`.
On success, `(reply or "").strip() or None` paired with `None`.  Every raised
exception is caught; status codes 401, 402 and 429 map to specific
human-readable messages, everything else degrades to `(None, None)`. -/
def ask_grok (keyConfigured : Bool) (outcome : GrokOutcome) :
    Option String × Option String :=
  if !keyConfigured then (none, none)
  else
    match outcome with
    | GrokOutcome.success content =>
        let r := pyStrip (content.getD "")
        (if r = "" then none else some r, none)
    | GrokOutcome.failure code =>
        if code = some 401 then
          (none, some "Неверный API-ключ xAI. Проверьте ключ в .env (XAI_API_KEY или AI_API_KEY).")
        else if code = some 402 then
          (none, some "Недостаточно средств на счёте xAI. Пополните баланс в консоли: console.x.ai")
        else if code = some 429 then
          (none, some "Слишком много запросов к xAI. Подождите немного и попробуйте снова.")
        else (none, none)

/-- `datetime(year, month, 1)`: the first instant of a month. -/
def monthStart (year month : Nat) : DateTime :=
  ⟨year, month, 1, 0, 0, 0, 0⟩

/-- The exclusive upper bound of a month window as
`get_month_stats_for_period` computes it: month 12 rolls to January of the
next year. -/
def periodEnd (year month : Nat) : DateTime :=
  if month = 12 then monthStart (year + 1) 1 else monthStart year (month + 1)

/-- The successor month with year rollover. -/
def nextMonth (year month : Nat) : Nat × Nat :=
  if month = 12 then (year + 1, 1) else (year, month + 1)

/-- Membership of a timestamp in the month window
`[monthStart year month, periodEnd year month)`. -/
def inPeriod (year month : Nat) (t : DateTime) : Bool :=
  DateTime.leb (monthStart year month) t && DateTime.ltb t (periodEnd year month)

/-- `get_month_stats_for_period` (src/bot.py:346): aggregates over
`interactions` with `ts >= start AND ts < end`, where `start` is the first
instant of the month and `end` the first instant of the next month (month 12
rolls over to January of year + 1). -/
def get_month_stats_for_period (db : Db) (year month : Nat) :
    Nat × Nat × Nat × Nat :=
  let start_date := monthStart year month
  let end_date := if month = 12 then monthStart (year + 1) 1
                  else monthStart year (month + 1)
  let rows := db.interactions.filter
    (fun i => DateTime.leb start_date i.ts && DateTime.ltb i.ts end_date)
  ((rows.map (fun i => i.user_id)).dedup.length,
   (rows.filter (fun i => i.button == "about")).length,
   (rows.filter (fun i => i.button == "cases")).length,
   rows.length)

/-- The Russian month names used by the export report. -/
def month_names : List String :=
  ["Январь", "Февраль", "Март", "Апрель", "Май", "Июнь",
   "Июль", "Август", "Сентябрь", "Октябрь", "Ноябрь", "Декабрь"]

/-- The fixed-layout report block `save_monthly_stats_to_file` appends to
`statistic.txt`. -/
def formatMonthlyReport (year month total_users about_clicks cases_clicks
    total_messages : Nat) : String :=
  let sep := String.mk (List.replicate 50 '=')
  "Статистика за " ++ (month_names.getD (month - 1) "") ++ " " ++
    toString year ++ " года\n" ++ sep ++ "\n" ++
    "Пользователей взаимодействовало: " ++ toString total_users ++ "\n" ++
    "Нажатий «О нас»: " ++ toString about_clicks ++ "\n" ++
    "Нажатий «Кейсы»: " ++ toString cases_clicks ++ "\n" ++
    "Всего сообщений: " ++ toString total_messages ++ "\n" ++ sep ++ "\n\n"

/-- The database together with the append-only artifact `statistic.txt`,
held as the list of appended blocks. -/
structure BotState where
  db : Db
  artifact : List String
  deriving DecidableEq, Repr

def emptyState : BotState := ⟨emptyDb, []⟩

/-- `save_monthly_stats_to_file` (src/bot.py:395): return false at once if a
`monthly_stats_saves` row for (year, month) exists; otherwise compute the
month's stats, append one report block to `statistic.txt`, insert the mark
row and return true. -/
def save_monthly_stats_to_file (st : BotState) (year month : Nat)
    (now : DateTime) : BotState × Bool :=
  if st.db.monthly_stats_saves.any
      (fun r => r.year == year && r.month == month) then
    (st, false)
  else
    let s := get_month_stats_for_period st.db year month
    let text := formatMonthlyReport year month s.1 s.2.1 s.2.2.1 s.2.2.2
    ({ st with
       artifact := st.artifact ++ [text],
       db := { st.db with
               monthly_stats_saves :=
                 st.db.monthly_stats_saves ++ [⟨year, month, now⟩] } },
     true)

/-- `check_and_save_monthly_stats` (src/bot.py:450): no-op unless today is
the 1st; else export the previous month (January's predecessor is December
of the previous year). -/
def check_and_save_monthly_stats (st : BotState) (today : DateTime) :
    BotState :=
  if today.day ≠ 1 then st
  else
    let prev := if today.month = 1 then (today.year - 1, 12)
                else (today.year, today.month - 1)
    (save_monthly_stats_to_file st prev.1 prev.2 today).1

/-- The reply-length cap on the free-text path (src/bot.py:645): replies
longer than 4000 characters are cut to 3997 characters plus `"..."`. -/
def truncate_reply (r : String) : String :=
  if r.length > 4000 then String.mk (r.data.take 3997) ++ "..." else r

/-- Observable side effects of `handle_text`, in order. -/
inductive Effect where
  | track (button : Option String)
  | send (text : String)
  | sendTyping
  | queryWindowStats (days : Nat)
  | saveApp (phone : String)
  | notifyAdmin
  deriving DecidableEq, Repr

def aboutText : String :=
  "🧾 *О нас*\n\n" ++
  "Мы создаём телеграм-ботов и автоматизируем бизнес-процессы.\n" ++
  "Помогаем компаниям экономить время и увеличивать продажи."

def casesText : String :=
  "📌 *Кейсы*\n\n" ++
  "1. Бот для поддержки клиентов — сократил нагрузку на операторов на 40%.\n" ++
  "2. Бот для заявок в отдел продаж — ускорил обработку лидов в 2 раза.\n" ++
  "3. Внутренний бот-комбайн — автоматизировал рутинные задачи в команде.\n\n" ++
  "💡 *Хотите получить наш продукт?*\n\n" ++
  "Это очень просто! Оставьте заявку, указав ваш номер телефона, " ++
  "и мы свяжемся с вами в ближайшее время."

def phonePromptText : String :=
  "Пожалуйста, отправьте ваш номер телефона для связи.\n" ++
  "Вы можете нажать кнопку ниже или ввести номер вручную."

def accessDeniedText : String := "Эта функция доступна только админу."

def thanksText : String :=
  "✅ Спасибо за ваше обращение!\n\n" ++
  "Мы получили вашу заявку и свяжемся с вами в ближайшее время."

def chooseSectionText : String := "Выберите нужный раздел:"

def fallbackRetryText : String :=
  "Сейчас не удалось получить ответ. Попробуйте позже или выберите кнопку: «О нас» или «Кейсы»."

def didNotUnderstandText : String :=
  "Я тебя не понял. Пожалуйста, выбери одну из кнопок: «О нас» или «Кейсы»."

def formatWindowStats (s : Nat × Nat × Nat × Nat) : String :=
  "📊 *Статистика за последние 30 дней*\n\n" ++
  "Пользователей взаимодействовало: *" ++ toString s.1 ++ "*\n" ++
  "Нажатий «О нас»: *" ++ toString s.2.1 ++ "*\n" ++
  "Нажатий «Кейсы»: *" ++ toString s.2.2.1 ++ "*\n" ++
  "Всего сообщений: *" ++ toString s.2.2.2 ++ "*"

/-- `handle_text` (src/bot.py:546): strip the text, match the button labels
in order, apply the administrator re-check for the stats label, then the
phone-number heuristic, then delegate to the provider (or the static
fallback).  `grok` is the provider call; `cutoff30` is the caller's
`utcnow() - timedelta(days=30)` for the admin stats window. -/
def handle_text (adminId : Int) (xaiConfigured : Bool)
    (grok : String → Option String × Option String)
    (db : Db) (user : TgUser) (rawText : String) (now : DateTime)
    (cutoff30 : DateTime) : Db × List Effect :=
  let text := pyStrip rawText
  if text = "О нас" then
    (track_user_interaction db user (some "about") now,
     [Effect.track (some "about"), Effect.send aboutText])
  else if text = "Кейсы" then
    (track_user_interaction db user (some "cases") now,
     [Effect.track (some "cases"), Effect.send casesText,
      Effect.send phonePromptText])
  else if text = "Статистика" then
    if user.id ≠ adminId then
      (track_user_interaction db user none now,
       [Effect.track none, Effect.send accessDeniedText])
    else
      let db' := track_user_interaction db user none now
      let s := get_month_stats db' cutoff30
      (db', [Effect.track none, Effect.queryWindowStats 30,
             Effect.send (formatWindowStats s)])
  else if is_phone_number text then
    (save_application db user text now,
     [Effect.saveApp text, Effect.notifyAdmin, Effect.send thanksText,
      Effect.send chooseSectionText])
  else
    let db' := track_user_interaction db user none now
    if xaiConfigured then
      match grok text with
      | (some r, e) =>
          if r = "" then
            (db', [Effect.track none, Effect.sendTyping,
                   Effect.send (pyOr e fallbackRetryText)])
          else
            (db', [Effect.track none, Effect.sendTyping,
                   Effect.send (truncate_reply r)])
      | (none, e) =>
          (db', [Effect.track none, Effect.sendTyping,
                 Effect.send (pyOr e fallbackRetryText)])
    else
      (db', [Effect.track none, Effect.send didNotUnderstandText])

/-! ### Concrete fixtures used by witnesses and counterexamples -/

def wDT : DateTime := ⟨2024, 1, 2, 3, 4, 5, 6⟩

def wUser : TgUser := ⟨1, some "u", some "A", some "B"⟩

/-- A state in which the (2024, 1) export is already marked. -/
def markedState : BotState :=
  ⟨{ emptyDb with monthly_stats_saves := [⟨2024, 1, wDT⟩] }, []⟩

/-! ### Helper lemmas -/

theorem DateTime.ltb_irrefl (a : DateTime) : DateTime.ltb a a = false := by
  simp [DateTime.ltb]

theorem track_interactions_eq (db : Db) (u : TgUser) (b : Option String)
    (t : DateTime) :
    (track_user_interaction db u b t).interactions =
      db.interactions ++ [⟨u.id, pyOr b "other", t⟩] := rfl

theorem track_users_conflict (db : Db) (u : TgUser) (b : Option String)
    (t : DateTime)
    (hex : db.users.any (fun r => r.user_id == u.id) = true) :
    (track_user_interaction db u b t).users =
      db.users.map (upsertRow u b t) := by
  simp only [track_user_interaction, hex, if_true]

theorem track_users_insert (db : Db) (u : TgUser) (b : Option String)
    (t : DateTime)
    (hex : ¬ db.users.any (fun r => r.user_id == u.id) = true) :
    (track_user_interaction db u b t).users =
      db.users ++ [seedRow u b t] := by
  simp only [track_user_interaction, if_neg hex]

theorem upsertRow_user_id (u : TgUser) (b : Option String) (t : DateTime)
    (r : UserRow) : (upsertRow u b t r).user_id = r.user_id := by
  by_cases h : r.user_id = u.id <;> simp [upsertRow, h]

theorem upsertRow_first_seen (u : TgUser) (b : Option String) (t : DateTime)
    (r : UserRow) : (upsertRow u b t r).first_seen = r.first_seen := by
  by_cases h : r.user_id = u.id <;> simp [upsertRow, h]

theorem upsertRow_mono (u : TgUser) (b : Option String) (t : DateTime)
    (r : UserRow) :
    r.total_messages ≤ (upsertRow u b t r).total_messages ∧
    r.about_clicks ≤ (upsertRow u b t r).about_clicks ∧
    r.cases_clicks ≤ (upsertRow u b t r).cases_clicks := by
  unfold upsertRow
  by_cases heq : r.user_id = u.id
  · simp only [if_pos heq]
    exact ⟨Nat.le_succ _, Nat.le_add_right _ _, Nat.le_add_right _ _⟩
  · simp only [if_neg heq]
    exact ⟨le_refl _, le_refl _, le_refl _⟩

/-! ### Claims -/

/-- C8: with no rows in the store, `get_stats` returns the tuple
`(0, 0, 0, 0)` — each component the integer 0 (the SQL `or 0` coercion of
`SUM`'s NULL is part of the embedded function). -/
theorem get_stats_empty_is_zeros : get_stats emptyDb = (0, 0, 0, 0) := rfl

/-- C6: `is_phone_number` is true iff the text contains at least 10 digit
characters (stripping the non-digit/non-plus characters first does not
change the digit count), and the three spec examples evaluate as stated. -/
theorem is_phone_number_spec :
    (∀ s : String,
      is_phone_number s =
        decide (10 ≤ (s.data.filter (fun c => c.isDigit)).length)) ∧
    is_phone_number "+7 (999) 123-45-67" = true ∧
    is_phone_number "12345" = false ∧
    is_phone_number "call me" = false := by
  refine ⟨fun s => ?_, by decide, by decide, by decide⟩
  have h : ((s.data.filter (fun c => c.isDigit || c = '+')).filter
      (fun c => c.isDigit)) = s.data.filter (fun c => c.isDigit) := by
    rw [List.filter_filter]
    exact List.filter_congr (fun c _ => by cases hc : c.isDigit <;> simp [hc])
  simp only [is_phone_number, h]

/-- C7 counterexample: a provider failure with status code 404
(not-found/unavailable) yields `(none, none)`, not a specific
human-readable message as the claim states. -/
theorem ask_grok_404_yields_no_message :
    ask_grok true (GrokOutcome.failure (some 404)) = (none, none) := rfl

/-- C7 (amended): `ask_grok` is total over provider outcomes (no exception
escapes); every failure yields an absent answer; failures outside the known
set {401, 402, 429} degrade to `(none, none)`; and codes 401 (unauthorized),
402 (payment/quota) and 429 (rate-limited) each yield an absent answer with
a specific non-empty human-readable message. -/
theorem ask_grok_error_contract :
    ∀ code : Option Nat,
      (ask_grok true (GrokOutcome.failure code)).1 = none ∧
      (code ≠ some 401 → code ≠ some 402 → code ≠ some 429 →
        ask_grok true (GrokOutcome.failure code) = (none, none)) ∧
      ((code = some 401 ∨ code = some 402 ∨ code = some 429) →
        ∃ msg, msg ≠ "" ∧
          ask_grok true (GrokOutcome.failure code) = (none, some msg)) := by
  intro code
  refine ⟨?_, ?_, ?_⟩
  · simp only [ask_grok]
    split_ifs <;> rfl
  · intro h1 h2 h3
    simp [ask_grok, h1, h2, h3]
  · rintro (rfl | rfl | rfl)
    · exact ⟨_, by decide, rfl⟩
    · exact ⟨_, by decide, rfl⟩
    · exact ⟨_, by decide, rfl⟩

theorem ask_grok_error_contract_witness :
    ask_grok true (GrokOutcome.failure (some 500)) = (none, none) ∧
    (∃ msg, msg ≠ "" ∧
      ask_grok true (GrokOutcome.failure (some 429)) = (none, some msg)) :=
  ⟨(ask_grok_error_contract (some 500)).2.1 (by decide) (by decide) (by decide),
   (ask_grok_error_contract (some 429)).2.2 (Or.inr (Or.inr rfl))⟩

/-- C2 counterexample: when the store already holds a mark for (2024, 1),
the FIRST call for (2024, 1) returns false and changes nothing — so the
claim's "for every store state the first call returns true" fails. -/
theorem export_first_call_false_when_marked :
    (save_monthly_stats_to_file markedState 2024 1 wDT).2 = false ∧
    (save_monthly_stats_to_file markedState 2024 1 wDT).1 = markedState :=
  ⟨rfl, rfl⟩

/-- C2 (amended): for every store state holding NO mark for (year, month),
calling the export twice for the same (year, month) makes the first call
return true and append exactly one report block, and the second call return
false, append nothing, and leave the state unchanged. -/
theorem export_month_if_unmarked_twice :
    ∀ (st : BotState) (y m : Nat) (t1 t2 : DateTime),
      st.db.monthly_stats_saves.any
        (fun r => r.year == y && r.month == m) = false →
      (save_monthly_stats_to_file st y m t1).2 = true ∧
      (save_monthly_stats_to_file st y m t1).1.artifact =
        st.artifact ++ [formatMonthlyReport y m
          (get_month_stats_for_period st.db y m).1
          (get_month_stats_for_period st.db y m).2.1
          (get_month_stats_for_period st.db y m).2.2.1
          (get_month_stats_for_period st.db y m).2.2.2] ∧
      (save_monthly_stats_to_file
        (save_monthly_stats_to_file st y m t1).1 y m t2).2 = false ∧
      (save_monthly_stats_to_file
        (save_monthly_stats_to_file st y m t1).1 y m t2).1 =
        (save_monthly_stats_to_file st y m t1).1 := by
  intro st y m t1 t2 h
  refine ⟨?_, ?_, ?_, ?_⟩ <;>
    simp [save_monthly_stats_to_file, h, List.any_append]

theorem export_month_if_unmarked_twice_witness :
    (save_monthly_stats_to_file emptyState 2024 1 wDT).2 = true ∧
    (save_monthly_stats_to_file emptyState 2024 1 wDT).1.artifact =
      emptyState.artifact ++ [formatMonthlyReport 2024 1
        (get_month_stats_for_period emptyState.db 2024 1).1
        (get_month_stats_for_period emptyState.db 2024 1).2.1
        (get_month_stats_for_period emptyState.db 2024 1).2.2.1
        (get_month_stats_for_period emptyState.db 2024 1).2.2.2] ∧
    (save_monthly_stats_to_file
      (save_monthly_stats_to_file emptyState 2024 1 wDT).1 2024 1 wDT).2 =
      false ∧
    (save_monthly_stats_to_file
      (save_monthly_stats_to_file emptyState 2024 1 wDT).1 2024 1 wDT).1 =
      (save_monthly_stats_to_file emptyState 2024 1 wDT).1 :=
  export_month_if_unmarked_twice emptyState 2024 1 wDT wDT (by decide)

/-- C4: `check_and_save_monthly_stats` is a no-op when today is not the
first calendar day of its month, and otherwise invokes the export exactly
for the previous month, with January's predecessor December of the previous
year. -/
theorem check_monthly_runs_for_previous_month :
    ∀ (st : BotState) (today : DateTime),
      (today.day ≠ 1 → check_and_save_monthly_stats st today = st) ∧
      (today.day = 1 → today.month = 1 →
        check_and_save_monthly_stats st today =
          (save_monthly_stats_to_file st (today.year - 1) 12 today).1) ∧
      (today.day = 1 → today.month ≠ 1 →
        check_and_save_monthly_stats st today =
          (save_monthly_stats_to_file st today.year (today.month - 1)
            today).1) := by
  intro st today
  refine ⟨fun h => ?_, fun h hm => ?_, fun h hm => ?_⟩
  · simp [check_and_save_monthly_stats, h]
  · simp [check_and_save_monthly_stats, h, hm]
  · simp [check_and_save_monthly_stats, h, hm]

theorem check_monthly_runs_for_previous_month_witness :
    check_and_save_monthly_stats emptyState ⟨2024, 5, 2, 0, 0, 0, 0⟩ =
      emptyState ∧
    check_and_save_monthly_stats emptyState ⟨2024, 1, 1, 0, 0, 0, 0⟩ =
      (save_monthly_stats_to_file emptyState 2023 12
        ⟨2024, 1, 1, 0, 0, 0, 0⟩).1 ∧
    check_and_save_monthly_stats emptyState ⟨2024, 5, 1, 0, 0, 0, 0⟩ =
      (save_monthly_stats_to_file emptyState 2024 4
        ⟨2024, 5, 1, 0, 0, 0, 0⟩).1 :=
  ⟨(check_monthly_runs_for_previous_month emptyState _).1 (by decide),
   (check_monthly_runs_for_previous_month emptyState _).2.1 rfl rfl,
   (check_monthly_runs_for_previous_month emptyState _).2.2 rfl (by decide)⟩

/-- C5: a non-administrator sending exactly the "Stats" label text is
tracked with `button = none`, receives the access-denied reply, and no
stats query happens (the effect trace holds no `queryWindowStats`). -/
theorem stats_label_non_admin_denied :
    ∀ (adminId : Int) (xai : Bool)
      (grok : String → Option String × Option String)
      (db : Db) (u : TgUser) (raw : String) (now cutoff : DateTime),
      pyStrip raw = "Статистика" → u.id ≠ adminId →
      handle_text adminId xai grok db u raw now cutoff =
        (track_user_interaction db u none now,
         [Effect.track none, Effect.send accessDeniedText]) := by
  intro adminId xai grok db u raw now cutoff hs hid
  simp [handle_text, hs, hid]

def grokNone : String → Option String × Option String := fun _ => (none, none)

theorem stats_label_non_admin_denied_witness :
    handle_text 999 false grokNone emptyDb wUser "Статистика" wDT wDT =
      (track_user_interaction emptyDb wUser none wDT,
       [Effect.track none, Effect.send accessDeniedText]) :=
  stats_label_non_admin_denied 999 false grokNone emptyDb wUser
    "Статистика" wDT wDT (by decide) (by decide)

/-- C10, part of the proof: membership form of the upsert's conflict
branch. -/
theorem upsert_first_seen_immutable :
    (∀ (db : Db) (u : TgUser) (b : Option String) (t : DateTime)
       (r : UserRow), r ∈ db.users → r.user_id = u.id →
      { r with
        username := u.username
        first_name := u.first_name
        last_name := u.last_name
        last_seen := t
        total_messages := r.total_messages + 1
        about_clicks := r.about_clicks + (if b = some "about" then 1 else 0)
        cases_clicks :=
          r.cases_clicks + (if b = some "cases" then 1 else 0) } ∈
        (track_user_interaction db u b t).users) ∧
    (∀ (db : Db) (u : TgUser) (b : Option String) (t : DateTime)
       (r' : UserRow), r' ∈ (track_user_interaction db u b t).users →
      db.users.any (fun r => r.user_id == u.id) = true →
      ∃ r ∈ db.users, r'.first_seen = r.first_seen ∧
        r'.user_id = r.user_id) := by
  constructor
  · intro db u b t r hmem heq
    have hany : db.users.any (fun x => x.user_id == u.id) = true :=
      List.any_eq_true.mpr ⟨r, hmem, by simp [heq]⟩
    rw [track_users_conflict db u b t hany]
    have hup : upsertRow u b t r =
        { r with
          username := u.username
          first_name := u.first_name
          last_name := u.last_name
          last_seen := t
          total_messages := r.total_messages + 1
          about_clicks :=
            r.about_clicks + (if b = some "about" then 1 else 0)
          cases_clicks :=
            r.cases_clicks + (if b = some "cases" then 1 else 0) } := by
      simp [upsertRow, heq]
    rw [← hup]
    exact List.mem_map_of_mem _ hmem
  · intro db u b t r' hmem' hany
    rw [track_users_conflict db u b t hany] at hmem'
    obtain ⟨r, hr, rfl⟩ := List.mem_map.mp hmem'
    exact ⟨r, hr, upsertRow_first_seen u b t r, upsertRow_user_id u b t r⟩

def wRow : UserRow := ⟨1, some "old", some "A", some "B", wDT, wDT, 1, 0, 0⟩

def wDb : Db := ⟨[wRow], [⟨1, "other", wDT⟩], [], []⟩

theorem upsert_first_seen_immutable_witness :
    ({ wRow with
       username := wUser.username
       first_name := wUser.first_name
       last_name := wUser.last_name
       last_seen := wDT
       total_messages := wRow.total_messages + 1
       about_clicks := wRow.about_clicks + 1
       cases_clicks := wRow.cases_clicks } ∈
      (track_user_interaction wDb wUser (some "about") wDT).users) ∧
    (∃ r ∈ wDb.users, wRow.first_seen = r.first_seen ∧
      wRow.user_id = r.user_id) :=
  ⟨upsert_first_seen_immutable.1 wDb wUser (some "about") wDT wRow
      (by simp [wDb]) rfl,
   ⟨wRow, by simp [wDb], rfl, rfl⟩⟩

/-- C9: `truncate_reply` caps every reply at 4000 characters (below the
platform's ~4096 limit); replies at or under 4000 characters pass through
unmodified; longer replies come out exactly 4000 characters long ending in
the ellipsis marker `"..."`; and on the free-text success path the
dispatcher sends exactly the truncated reply. -/
theorem reply_truncation :
    (∀ r : String,
      (truncate_reply r).length ≤ 4000 ∧
      (r.length ≤ 4000 → truncate_reply r = r) ∧
      (4000 < r.length →
        (truncate_reply r).length = 4000 ∧
        "...".data <:+ (truncate_reply r).data)) ∧
    (∀ (adminId : Int) (grok : String → Option String × Option String)
       (db : Db) (u : TgUser) (raw : String) (now cutoff : DateTime)
       (r : String) (e : Option String),
      pyStrip raw ≠ "О нас" → pyStrip raw ≠ "Кейсы" →
      pyStrip raw ≠ "Статистика" →
      is_phone_number (pyStrip raw) = false →
      grok (pyStrip raw) = (some r, e) → r ≠ "" →
      (handle_text adminId true grok db u raw now cutoff).2 =
        [Effect.track none, Effect.sendTyping,
         Effect.send (truncate_reply r)]) := by
  constructor
  · intro r
    by_cases h : r.length > 4000
    · have hdata : r.data.length = r.length := rfl
      have hlen : (truncate_reply r).length = 4000 := by
        simp only [truncate_reply, if_pos h]
        rw [String.length_append]
        show (r.data.take 3997).length + 3 = 4000
        rw [List.length_take]
        omega
      refine ⟨by omega, fun hle => by omega, fun _ => ⟨hlen, ?_⟩⟩
      simp only [truncate_reply, if_pos h]
      exact List.suffix_append _ _
    · have hr : truncate_reply r = r := by
        simp only [truncate_reply, if_neg h]
      exact ⟨by rw [hr]; omega, fun _ => hr, fun hgt => by omega⟩
  · intro adminId grok db u raw now cutoff r e h1 h2 h3 h4 h5 h6
    simp [handle_text, h1, h2, h3, h4, h5, h6]

def grokOk : String → Option String × Option String :=
  fun _ => (some "ok", none)

def longReply : String := String.mk (List.replicate 4001 'a')

theorem reply_truncation_witness :
    ((truncate_reply longReply).length = 4000 ∧
      "...".data <:+ (truncate_reply longReply).data) ∧
    (handle_text 999 true grokOk emptyDb wUser "привет" wDT wDT).2 =
      [Effect.track none, Effect.sendTyping,
       Effect.send (truncate_reply "ok")] :=
  ⟨(reply_truncation.1 longReply).2.2
      (by show 4000 < (List.replicate 4001 'a').length
          rw [List.length_replicate]; omega),
   reply_truncation.2 999 grokOk emptyDb wUser "привет" wDT wDT "ok" none
      (by decide) (by decide) (by decide) (by decide) rfl (by decide)⟩

/-! ### Month-window partition (C3) -/

theorem periodEnd_eq_nextMonth (y m : Nat) :
    periodEnd y m = monthStart (nextMonth y m).1 (nextMonth y m).2 := by
  by_cases h : m = 12 <;> simp [periodEnd, nextMonth, h]

theorem monthStart_ltb_periodEnd (y m : Nat) :
    DateTime.ltb (monthStart y m) (periodEnd y m) = true := by
  by_cases h : m = 12 <;>
    simp [DateTime.ltb, monthStart, periodEnd, h]

/-- Two windows that share their boundary instant cannot both contain a
timestamp: membership is decided by the single comparison with the shared
boundary. -/
theorem inPeriod_next_no_overlap (y m : Nat) (t : DateTime) :
    (inPeriod y m t &&
      inPeriod (nextMonth y m).1 (nextMonth y m).2 t) = false := by
  have hb := periodEnd_eq_nextMonth y m
  simp only [inPeriod, DateTime.leb, hb]
  cases h : DateTime.ltb t (monthStart (nextMonth y m).1 (nextMonth y m).2) <;>
    simp [h]

theorem inPeriod_next_cover (y m : Nat) (t : DateTime)
    (h1 : DateTime.leb (monthStart y m) t = true)
    (h2 : DateTime.ltb t
      (periodEnd (nextMonth y m).1 (nextMonth y m).2) = true) :
    (inPeriod y m t ||
      inPeriod (nextMonth y m).1 (nextMonth y m).2 t) = true := by
  have hb := periodEnd_eq_nextMonth y m
  simp only [inPeriod, DateTime.leb, hb]
  cases h : DateTime.ltb t (monthStart (nextMonth y m).1 (nextMonth y m).2) <;>
    simp_all [DateTime.leb]

/-- Counting a list split by two pointwise exclusive, jointly covering
predicates. -/
theorem length_filter_partition {α : Type} (p q : α → Bool)
    (hpq : ∀ a, (p a && q a) = false) :
    ∀ l : List α, (∀ a ∈ l, (p a || q a) = true) →
      (l.filter p).length + (l.filter q).length = l.length := by
  intro l
  induction l with
  | nil => intro _; simp
  | cons a l ih =>
    intro h
    have ha := h a (List.mem_cons_self a l)
    have hl := ih (fun x hx => h x (List.mem_cons_of_mem a hx))
    cases hp : p a
    · have hq : q a = true := by
        cases hq : q a
        · rw [hp, hq] at ha; simp at ha
        · rfl
      simp [List.filter_cons, hp, hq]
      omega
    · have hq : q a = false := by
        have := hpq a
        cases hq : q a
        · rfl
        · rw [hp, hq] at this; simp at this
      simp [List.filter_cons, hp, hq]
      omega

/-- C3: the month window of `get_month_stats_for_period` is
`[first instant of the month, first instant of the next month)` on the
(UTC) timeline, with month 12 rolling to January of the next year; the
windows of two adjacent months never overlap, together they cover exactly
the interactions of the two-month range (so they partition it with no gap),
and a timestamp exactly at a month's first instant belongs to that month
and not to the previous one. -/
theorem period_stats_partition :
    ∀ (db : Db) (y m : Nat),
      (get_month_stats_for_period db y m).2.2.2 =
        (db.interactions.filter (fun i => inPeriod y m i.ts)).length ∧
      periodEnd y 12 = monthStart (y + 1) 1 ∧
      (∀ t, (inPeriod y m t &&
        inPeriod (nextMonth y m).1 (nextMonth y m).2 t) = false) ∧
      ((db.interactions.filter (fun i =>
          DateTime.leb (monthStart y m) i.ts &&
          DateTime.ltb i.ts
            (periodEnd (nextMonth y m).1 (nextMonth y m).2))).filter
          (fun i => inPeriod y m i.ts)).length +
        ((db.interactions.filter (fun i =>
          DateTime.leb (monthStart y m) i.ts &&
          DateTime.ltb i.ts
            (periodEnd (nextMonth y m).1 (nextMonth y m).2))).filter
          (fun i =>
            inPeriod (nextMonth y m).1 (nextMonth y m).2 i.ts)).length =
        (db.interactions.filter (fun i =>
          DateTime.leb (monthStart y m) i.ts &&
          DateTime.ltb i.ts
            (periodEnd (nextMonth y m).1 (nextMonth y m).2))).length ∧
      inPeriod (nextMonth y m).1 (nextMonth y m).2
        (monthStart (nextMonth y m).1 (nextMonth y m).2) = true ∧
      inPeriod y m (monthStart (nextMonth y m).1 (nextMonth y m).2) =
        false := by
  intro db y m
  refine ⟨rfl, by simp [periodEnd], inPeriod_next_no_overlap y m, ?_, ?_, ?_⟩
  · refine length_filter_partition
      (fun (i : InteractionRow) => inPeriod y m i.ts)
      (fun (i : InteractionRow) =>
        inPeriod (nextMonth y m).1 (nextMonth y m).2 i.ts)
      (fun (i : InteractionRow) => inPeriod_next_no_overlap y m i.ts) _ ?_
    intro i hi
    rw [List.mem_filter] at hi
    have := hi.2
    rw [Bool.and_eq_true] at this
    exact inPeriod_next_cover y m i.ts this.1 this.2
  · simp only [inPeriod, DateTime.leb, DateTime.ltb_irrefl, Bool.not_false,
      Bool.true_and]
    exact monthStart_ltb_periodEnd _ _
  · simp [inPeriod, periodEnd_eq_nextMonth y m, DateTime.ltb_irrefl]

/-! ### User-counter invariant (C1) -/

/-- `COUNT(*)` of a user's `interactions` rows. -/
def msgCount (l : List InteractionRow) (uid : Int) : Nat :=
  (l.filter (fun i => i.user_id == uid)).length

/-- Count of a user's `interactions` rows with a given button value. -/
def btnCount (l : List InteractionRow) (uid : Int) (s : String) : Nat :=
  (l.filter (fun i => i.user_id == uid && i.button == s)).length

/-- The spec's per-user counter invariant. -/
def rowConsistent (ints : List InteractionRow) (r : UserRow) : Prop :=
  r.total_messages = msgCount ints r.user_id ∧
  r.about_clicks = btnCount ints r.user_id "about" ∧
  r.cases_clicks = btnCount ints r.user_id "cases"

/-- The whole-store invariant: every `users` row counts its own
`interactions` rows, and every `interactions` row has a `users` row. -/
def Inv (db : Db) : Prop :=
  (∀ r ∈ db.users, rowConsistent db.interactions r) ∧
  (∀ i ∈ db.interactions, ∃ r ∈ db.users, r.user_id = i.user_id)

/-- One tracked inbound message. -/
structure Event where
  user : TgUser
  button : Option String
  ts : DateTime
  deriving DecidableEq, Repr

/-- A whole session: fold `track_user_interaction` over the events,
starting from the freshly initialised store. -/
def runEvents (events : List Event) : Db :=
  events.foldl (fun db e => track_user_interaction db e.user e.button e.ts)
    emptyDb

theorem any_user_iff (l : List UserRow) (uid : Int) :
    l.any (fun r => r.user_id == uid) = true ↔ ∃ r ∈ l, r.user_id = uid := by
  simp [List.any_eq_true]

theorem pyOr_eq_iff (b : Option String) (s : String) (h1 : s ≠ "other")
    (h2 : s ≠ "") : (pyOr b "other" = s) ↔ b = some s := by
  cases b with
  | none =>
    constructor
    · intro h; exact absurd h.symm h1
    · intro h; cases h
  | some v =>
    by_cases hv : v = ""
    · subst hv
      constructor
      · intro h; exact absurd h.symm h1
      · intro h; injection h with h'; exact absurd h'.symm h2
    · simp [pyOr, hv]

theorem msgCount_append (l : List InteractionRow) (i : InteractionRow)
    (uid : Int) :
    msgCount (l ++ [i]) uid =
      msgCount l uid + (if i.user_id = uid then 1 else 0) := by
  by_cases h : i.user_id = uid <;>
    simp [msgCount, List.filter_append, h]

theorem btnCount_append (l : List InteractionRow) (i : InteractionRow)
    (uid : Int) (s : String) :
    btnCount (l ++ [i]) uid s =
      btnCount l uid s +
        (if i.user_id = uid ∧ i.button = s then 1 else 0) := by
  by_cases h1 : i.user_id = uid <;> by_cases h2 : i.button = s <;>
    simp [btnCount, List.filter_append, h1, h2]

theorem msgCount_eq_zero (l : List InteractionRow) (uid : Int)
    (h : ∀ i ∈ l, i.user_id ≠ uid) : msgCount l uid = 0 := by
  rw [msgCount, List.length_eq_zero, List.filter_eq_nil_iff]
  intro i hi
  simp [h i hi]

theorem btnCount_eq_zero (l : List InteractionRow) (uid : Int) (s : String)
    (h : ∀ i ∈ l, i.user_id ≠ uid) : btnCount l uid s = 0 := by
  rw [btnCount, List.length_eq_zero, List.filter_eq_nil_iff]
  intro i hi
  simp [h i hi]

/-- Appending another user's interaction does not change a row's counts. -/
theorem rowConsistent_append_other (ints : List InteractionRow) (r : UserRow)
    (i : InteractionRow) (h : rowConsistent ints r)
    (hne : i.user_id ≠ r.user_id) : rowConsistent (ints ++ [i]) r := by
  obtain ⟨h1, h2, h3⟩ := h
  refine ⟨?_, ?_, ?_⟩ <;>
    simp [msgCount_append, btnCount_append, hne, h1, h2, h3]

/-- The upsert's conflict branch keeps the row consistent with the appended
interaction. -/
theorem rowConsistent_update (ints : List InteractionRow) (r : UserRow)
    (u : TgUser) (b : Option String) (t : DateTime)
    (h : rowConsistent ints r) (heq : r.user_id = u.id) :
    rowConsistent (ints ++ [⟨u.id, pyOr b "other", t⟩])
      { r with
        username := u.username
        first_name := u.first_name
        last_name := u.last_name
        last_seen := t
        total_messages := r.total_messages + 1
        about_clicks := r.about_clicks + (if b = some "about" then 1 else 0)
        cases_clicks :=
          r.cases_clicks + (if b = some "cases" then 1 else 0) } := by
  obtain ⟨h1, h2, h3⟩ := h
  have hab : (pyOr b "other" = "about") ↔ b = some "about" :=
    pyOr_eq_iff b "about" (by decide) (by decide)
  have hca : (pyOr b "other" = "cases") ↔ b = some "cases" :=
    pyOr_eq_iff b "cases" (by decide) (by decide)
  refine ⟨?_, ?_, ?_⟩
  · simp [msgCount_append, heq.symm, h1]
  · simp only [btnCount_append, heq.symm, true_and, hab]
    rw [h2]
  · simp only [btnCount_append, heq.symm, true_and, hca]
    rw [h3]

/-- `track_user_interaction` preserves the store invariant. -/
theorem track_preserves_inv (db : Db) (u : TgUser) (b : Option String)
    (t : DateTime) (h : Inv db) :
    Inv (track_user_interaction db u b t) := by
  obtain ⟨hrows, hcover⟩ := h
  by_cases hex : db.users.any (fun r => r.user_id == u.id) = true
  · constructor
    · intro r' hr'
      rw [track_users_conflict db u b t hex] at hr'
      obtain ⟨r, hr, rfl⟩ := List.mem_map.mp hr'
      have hc := hrows r hr
      show rowConsistent (track_user_interaction db u b t).interactions _
      rw [track_interactions_eq]
      by_cases heq : r.user_id = u.id
      · have hup : upsertRow u b t r =
            { r with
              username := u.username
              first_name := u.first_name
              last_name := u.last_name
              last_seen := t
              total_messages := r.total_messages + 1
              about_clicks :=
                r.about_clicks + (if b = some "about" then 1 else 0)
              cases_clicks :=
                r.cases_clicks + (if b = some "cases" then 1 else 0) } := by
          simp [upsertRow, heq]
        rw [hup]
        exact rowConsistent_update db.interactions r u b t hc heq
      · have hup : upsertRow u b t r = r := by simp [upsertRow, heq]
        rw [hup]
        exact rowConsistent_append_other db.interactions r _ hc
          (fun hh => heq hh.symm)
    · intro i hi
      rw [track_interactions_eq, List.mem_append] at hi
      rw [track_users_conflict db u b t hex]
      cases hi with
      | inl hold =>
        obtain ⟨r, hr, hid⟩ := hcover i hold
        exact ⟨upsertRow u b t r, List.mem_map_of_mem _ hr,
          by rw [upsertRow_user_id]; exact hid⟩
      | inr hnew =>
        rw [List.mem_singleton] at hnew
        subst hnew
        obtain ⟨r, hr, hid⟩ := (any_user_iff db.users u.id).mp hex
        exact ⟨upsertRow u b t r, List.mem_map_of_mem _ hr,
          by rw [upsertRow_user_id]; exact hid⟩
  · have hnx : ¬∃ r ∈ db.users, r.user_id = u.id :=
      fun ⟨r, hr, hid⟩ => hex ((any_user_iff db.users u.id).mpr ⟨r, hr, hid⟩)
    have hints0 : ∀ i ∈ db.interactions, i.user_id ≠ u.id := by
      intro i hi hh
      obtain ⟨r, hr, hid⟩ := hcover i hi
      exact hnx ⟨r, hr, by rw [hid, hh]⟩
    constructor
    · intro r' hr'
      rw [track_users_insert db u b t hex, List.mem_append] at hr'
      show rowConsistent (track_user_interaction db u b t).interactions _
      rw [track_interactions_eq]
      cases hr' with
      | inl hold =>
        exact rowConsistent_append_other db.interactions r' _
          (hrows r' hold) (fun hh => hnx ⟨r', hold, hh.symm⟩)
      | inr hnew =>
        rw [List.mem_singleton] at hnew
        subst hnew
        have hm0 : msgCount db.interactions u.id = 0 :=
          msgCount_eq_zero _ _ hints0
        have ha0 : btnCount db.interactions u.id "about" = 0 :=
          btnCount_eq_zero _ _ _ hints0
        have hc0 : btnCount db.interactions u.id "cases" = 0 :=
          btnCount_eq_zero _ _ _ hints0
        have hab : (pyOr b "other" = "about") ↔ b = some "about" :=
          pyOr_eq_iff b "about" (by decide) (by decide)
        have hca : (pyOr b "other" = "cases") ↔ b = some "cases" :=
          pyOr_eq_iff b "cases" (by decide) (by decide)
        refine ⟨?_, ?_, ?_⟩
        · show (1 : Nat) =
            msgCount (db.interactions ++ [⟨u.id, pyOr b "other", t⟩]) u.id
          simp [msgCount_append, hm0]
        · show (if b = some "about" then 1 else 0) =
            btnCount (db.interactions ++ [⟨u.id, pyOr b "other", t⟩])
              u.id "about"
          simp only [btnCount_append, true_and, hab, ha0]
          simp
        · show (if b = some "cases" then 1 else 0) =
            btnCount (db.interactions ++ [⟨u.id, pyOr b "other", t⟩])
              u.id "cases"
          simp only [btnCount_append, true_and, hca, hc0]
          simp
    · intro i hi
      rw [track_interactions_eq, List.mem_append] at hi
      rw [track_users_insert db u b t hex]
      cases hi with
      | inl hold =>
        obtain ⟨r, hr, hid⟩ := hcover i hold
        exact ⟨r, List.mem_append_left _ hr, hid⟩
      | inr hnew =>
        rw [List.mem_singleton] at hnew
        subst hnew
        exact ⟨seedRow u b t,
          List.mem_append_right _ (List.mem_singleton.mpr rfl), rfl⟩

theorem inv_empty : Inv emptyDb :=
  ⟨fun r hr => absurd hr (List.not_mem_nil r),
   fun i hi => absurd hi (List.not_mem_nil i)⟩

theorem runEvents_inv (events : List Event) : Inv (runEvents events) := by
  suffices h : ∀ (evs : List Event) (db : Db), Inv db →
      Inv (evs.foldl
        (fun db e => track_user_interaction db e.user e.button e.ts) db) by
    exact h events emptyDb inv_empty
  intro evs
  induction evs with
  | nil => intro db hdb; exact hdb
  | cons e evs ih =>
    intro db hdb
    exact ih _ (track_preserves_inv db e.user e.button e.ts hdb)

/-- One `track_user_interaction` call never decreases any counter of any
existing `users` row. -/
theorem track_mono (db : Db) (u : TgUser) (b : Option String) (t : DateTime)
    (r : UserRow) (hr : r ∈ db.users) :
    ∃ r' ∈ (track_user_interaction db u b t).users,
      r'.user_id = r.user_id ∧ r.total_messages ≤ r'.total_messages ∧
      r.about_clicks ≤ r'.about_clicks ∧
      r.cases_clicks ≤ r'.cases_clicks := by
  by_cases hex : db.users.any (fun x => x.user_id == u.id) = true
  · rw [track_users_conflict db u b t hex]
    obtain ⟨hm, ha, hc⟩ := upsertRow_mono u b t r
    exact ⟨upsertRow u b t r, List.mem_map_of_mem _ hr,
      upsertRow_user_id u b t r, hm, ha, hc⟩
  · rw [track_users_insert db u b t hex]
    exact ⟨r, List.mem_append_left _ hr, rfl, le_refl _, le_refl _,
      le_refl _⟩

/-- C1: after any sequence of tracked interactions starting from the
freshly initialised store, every `users` row's `total_messages`,
`about_clicks` and `cases_clicks` equal the counts of that user's
`interactions` rows (all rows / rows with button `about` / rows with button
`cases`); and a further `track_user_interaction` call never decreases any
existing row's counters. -/
theorem user_counters_match_interactions :
    (∀ events : List Event, Inv (runEvents events)) ∧
    (∀ (db : Db) (u : TgUser) (b : Option String) (t : DateTime)
       (r : UserRow), r ∈ db.users →
      ∃ r' ∈ (track_user_interaction db u b t).users,
        r'.user_id = r.user_id ∧ r.total_messages ≤ r'.total_messages ∧
        r.about_clicks ≤ r'.about_clicks ∧
        r.cases_clicks ≤ r'.cases_clicks) :=
  ⟨runEvents_inv, fun db u b t r hr => track_mono db u b t r hr⟩

def wEvents : List Event := [⟨wUser, some "about", wDT⟩, ⟨wUser, none, wDT⟩]

theorem user_counters_match_interactions_witness :
    Inv (runEvents wEvents) ∧
    (∃ r' ∈ (track_user_interaction wDb wUser none wDT).users,
      r'.user_id = wRow.user_id ∧
      wRow.total_messages ≤ r'.total_messages ∧
      wRow.about_clicks ≤ r'.about_clicks ∧
      wRow.cases_clicks ≤ r'.cases_clicks) :=
  ⟨user_counters_match_interactions.1 wEvents,
   user_counters_match_interactions.2 wDb wUser none wDT wRow
     (by simp [wDb])⟩

end LeadBot
